import Mathlib

/-!
Verification development for the chartdb-frontend diagram synchronization
subsystem: the wire codec (`serializeDiagram` / `deserializeDiagram` in
`src/lib/sync-service.ts`), the remote sync client (`SyncService.push` /
`pull` / `listDiagrams`), the sync coordinator (`pushDiagram` /
`pullDiagram` / `listDiagrams` in `src/hooks/use-sync.ts`), and the startup
reconciler (`loadDefaultDiagram` in
`src/pages/editor-page/use-diagram-loader.tsx`).

Modelling conventions:
- JavaScript timestamps (millisecond instants produced by `Date.now()` and
  stored in `Date` objects) are modelled as `Nat`.  In JavaScript,
  `new Date(d.toISOString()).getTime() = d.getTime()` exactly (millisecond
  precision both ways), so the ISO-8601 string on the wire is modelled as
  the instant itself.
- `undefined` / optional properties are modelled as `Option`.
- The asynchronous `fetch` transport is modelled as an oracle value passed
  to each operation: either the transport threw, or it produced an HTTP
  response (status, status text, and the relevant readings of the JSON
  body).
- JavaScript truthiness on numbers (`x || y` falls through when `x` is 0)
  and on strings (empty string is falsy) is modelled explicitly.
-/

namespace ChartDB

/-- Millisecond instant (JavaScript `Date.now()` / `Date` value). -/
abbrev Timestamp := Nat

/-- Structured field type pair `\x7bid, name\x7d` of the internal model. -/
structure FieldType where
  id : String
  name : String
deriving DecidableEq

/-- Internal `DBField` (shape taken from what `deserializeDiagram`
constructs and `serializeDiagram` reads; the domain module itself is not
part of the sync core). -/
structure DBField where
  id : String
  name : String
  type : FieldType
  primaryKey : Bool
  unique : Bool
  nullable : Bool
  createdAt : Timestamp
  check : Option String
  default : Option String
  collation : Option String
  comments : Option String
deriving DecidableEq

/-- Internal `DBIndex`. -/
structure DBIndex where
  id : String
  name : String
  unique : Bool
  fieldIds : List String
  createdAt : Timestamp
deriving DecidableEq

/-- Internal `DBTable`. -/
structure DBTable where
  id : String
  name : String
  schema : Option String
  x : Int
  y : Int
  color : String
  isView : Bool
  createdAt : Timestamp
  fields : List DBField
  indexes : List DBIndex
  comments : Option String
deriving DecidableEq

/-- Internal `DBRelationship`; cardinalities are modelled as the strings
they are cast from. -/
structure DBRelationship where
  id : String
  name : String
  sourceTableId : String
  targetTableId : String
  sourceFieldId : String
  targetFieldId : String
  sourceCardinality : String
  targetCardinality : String
  createdAt : Timestamp
deriving DecidableEq

/-- Internal `DBDependency`. -/
structure DBDependency where
  id : String
  tableId : String
  dependentTableId : String
  createdAt : Timestamp
deriving DecidableEq

/-- Internal `Area`. -/
structure DBArea where
  id : String
  name : String
  x : Int
  y : Int
  width : Int
  height : Int
  color : String
deriving DecidableEq

/-- Internal `DBCustomTypeField`: opaque to the codec (passed through wholesale in
both directions); modelled as a simple record. -/
structure DBCustomTypeField where
  fieldName : String
  fieldType : String
deriving DecidableEq

/-- Internal `DBCustomType`; `fields` is nullable (`none` models `null`). -/
structure DBCustomType where
  id : String
  name : String
  schema : Option String
  kind : String
  fields : Option (List DBCustomTypeField)
deriving DecidableEq

/-- Internal `Note`. -/
structure DBNote where
  id : String
  content : String
  x : Int
  y : Int
  width : Int
  height : Int
  color : String
deriving DecidableEq

/-- Internal `Diagram`.  All six entity collections are optional, as in the
domain model consumed by `serializeDiagram`. -/
structure Diagram where
  id : String
  name : String
  databaseType : String
  databaseEdition : Option String
  createdAt : Timestamp
  updatedAt : Timestamp
  tables : Option (List DBTable)
  relationships : Option (List DBRelationship)
  dependencies : Option (List DBDependency)
  areas : Option (List DBArea)
  customTypes : Option (List DBCustomType)
  notes : Option (List DBNote)
deriving DecidableEq

/-! ## Wire model (the `Backend*` interfaces of `sync-service.ts`)

`serializeDiagram` additionally stamps a `diagramId` onto every nested
entity; the declared wire interfaces omit it and `deserializeDiagram`
ignores it, so it is carried here as an explicit `diagramId` field on each
wire entity.  The runtime JSON of a wholesale-serialized index also carries
the internal index `createdAt`, but the declared wire schema
(`BackendIndex`) omits it and the decoder never reads it (it always
regenerates index `createdAt`), so the wire index models the declared
schema. -/

/-- Wire field type: `string | \x7b id, name \x7d`. -/
inductive WireFieldType where
  | str (s : String)
  | structured (t : FieldType)
deriving DecidableEq

/-- Wire `BackendField`. -/
structure BackendField where
  id : String
  name : String
  type : WireFieldType
  primaryKey : Bool
  unique : Bool
  nullable : Bool
  createdAt : Option Timestamp
  check : Option String
  default : Option String
  collation : Option String
  comments : Option String
deriving DecidableEq

/-- Wire `BackendIndex`. -/
structure BackendIndex where
  id : String
  name : String
  unique : Bool
  fieldIds : List String
deriving DecidableEq

/-- Wire `BackendTable` (plus the `diagramId` stamped by the serializer). -/
structure BackendTable where
  id : String
  diagramId : Option String
  name : String
  schema : Option String
  x : Int
  y : Int
  color : String
  isView : Bool
  createdAt : Option Timestamp
  fields : List BackendField
  indexes : Option (List BackendIndex)
  comments : Option String
deriving DecidableEq

/-- Wire `BackendRelationship` (plus serializer `diagramId`). -/
structure BackendRelationship where
  id : String
  diagramId : Option String
  name : String
  sourceTableId : String
  targetTableId : String
  sourceFieldId : String
  targetFieldId : String
  sourceCardinality : String
  targetCardinality : String
  createdAt : Option Timestamp
deriving DecidableEq

/-- Wire `BackendDependency` (plus serializer `diagramId`). -/
structure BackendDependency where
  id : String
  diagramId : Option String
  tableId : String
  dependentTableId : String
  createdAt : Option Timestamp
deriving DecidableEq

/-- Wire `BackendArea` (plus serializer `diagramId`). -/
structure BackendArea where
  id : String
  diagramId : Option String
  name : String
  x : Int
  y : Int
  width : Int
  height : Int
  color : String
deriving DecidableEq

/-- Wire `BackendCustomType` (plus serializer `diagramId`). -/
structure BackendCustomType where
  id : String
  diagramId : Option String
  name : String
  schema : Option String
  kind : String
  fields : Option (List DBCustomTypeField)
deriving DecidableEq

/-- Wire `BackendNote` (plus serializer `diagramId`). -/
structure BackendNote where
  id : String
  diagramId : Option String
  content : String
  x : Int
  y : Int
  width : Int
  height : Int
  color : String
deriving DecidableEq

/-- Wire `BackendDiagramResponse`.  The two diagram-level timestamps travel as
ISO-8601 strings; since `Date → toISOString → new Date` is exact, they are
modelled as the instants themselves. -/
structure BackendDiagramResponse where
  id : String
  name : String
  databaseType : String
  databaseEdition : Option String
  createdAt : Timestamp
  updatedAt : Timestamp
  tables : Option (List BackendTable)
  relationships : Option (List BackendRelationship)
  dependencies : Option (List BackendDependency)
  areas : Option (List BackendArea)
  customTypes : Option (List BackendCustomType)
  notes : Option (List BackendNote)
deriving DecidableEq

/-! ## Wire codec: `serializeDiagram` (sync-service.ts lines 239-306) -/

/-- One table of `serializeDiagram`: every listed property is copied; the
internal `createdAt` is NOT emitted; `fields` and `indexes` are passed
wholesale (fields keep all their properties including `createdAt`; the
declared wire index schema carries only id/name/unique/fieldIds). -/
def serializeField (f : DBField) : BackendField :=
  { id := f.id
    name := f.name
    type := .structured f.type
    primaryKey := f.primaryKey
    unique := f.unique
    nullable := f.nullable
    createdAt := some f.createdAt
    check := f.check
    default := f.default
    collation := f.collation
    comments := f.comments }

/-- Wholesale pass-through of an internal index into the declared wire
index schema (which has no `createdAt`). -/
def serializeIndex (i : DBIndex) : BackendIndex :=
  { id := i.id, name := i.name, unique := i.unique, fieldIds := i.fieldIds }

def serializeTable (diagramId : String) (t : DBTable) : BackendTable :=
  { id := t.id
    diagramId := some diagramId
    name := t.name
    schema := t.schema
    x := t.x
    y := t.y
    color := t.color
    isView := t.isView
    createdAt := none
    fields := t.fields.map serializeField
    indexes := some (t.indexes.map serializeIndex)
    comments := t.comments }

def serializeRelationship (diagramId : String) (r : DBRelationship) :
    BackendRelationship :=
  { id := r.id
    diagramId := some diagramId
    name := r.name
    sourceTableId := r.sourceTableId
    targetTableId := r.targetTableId
    sourceFieldId := r.sourceFieldId
    targetFieldId := r.targetFieldId
    sourceCardinality := r.sourceCardinality
    targetCardinality := r.targetCardinality
    createdAt := none }

def serializeDependency (diagramId : String) (d : DBDependency) :
    BackendDependency :=
  { id := d.id
    diagramId := some diagramId
    tableId := d.tableId
    dependentTableId := d.dependentTableId
    createdAt := none }

def serializeArea (diagramId : String) (a : DBArea) : BackendArea :=
  { id := a.id, diagramId := some diagramId, name := a.name
    x := a.x, y := a.y, width := a.width, height := a.height
    color := a.color }

def serializeCustomType (diagramId : String) (ct : DBCustomType) :
    BackendCustomType :=
  { id := ct.id, diagramId := some diagramId, name := ct.name
    schema := ct.schema, kind := ct.kind, fields := ct.fields }

def serializeNote (diagramId : String) (n : DBNote) : BackendNote :=
  { id := n.id, diagramId := some diagramId, content := n.content
    x := n.x, y := n.y, width := n.width, height := n.height
    color := n.color }

/-- Source `SyncService.serializeDiagram`: collections that are absent internally
stay absent on the wire (`diagram.tables?.map` keeps `undefined`). -/
def serializeDiagram (d : Diagram) : BackendDiagramResponse :=
  { id := d.id
    name := d.name
    databaseType := d.databaseType
    databaseEdition := d.databaseEdition
    createdAt := d.createdAt
    updatedAt := d.updatedAt
    tables := d.tables.map (List.map (serializeTable d.id))
    relationships := d.relationships.map (List.map (serializeRelationship d.id))
    dependencies := d.dependencies.map (List.map (serializeDependency d.id))
    areas := d.areas.map (List.map (serializeArea d.id))
    customTypes := d.customTypes.map (List.map (serializeCustomType d.id))
    notes := d.notes.map (List.map (serializeNote d.id)) }

/-! ## Wire codec: `deserializeDiagram` (sync-service.ts lines 308-402) -/

/-- JavaScript `x || now` on an optional number: `undefined` and the falsy
number `0` both fall through to `now` (`t.createdAt || Date.now()`). -/
def jsNumOr (x : Option Timestamp) (now : Timestamp) : Timestamp :=
  match x with
  | none => now
  | some n => if n = 0 then now else n

/-- The character class of the JavaScript regex `\s` (the ASCII part plus
no-break space; the codec only ever sees type names, for which this is the
relevant fragment). -/
def isJsWhitespace (c : Char) : Bool :=
  c == ' ' || c == '\t' || c == '\n' || c == '\r' || c == '\x0b' ||
    c == '\x0c' || c == ' '

/-- JavaScript `replace(/\s+/g, "_")`: every maximal run of whitespace
characters becomes a single underscore. -/
def collapseWsChars : List Char → Bool → List Char
  | [], _ => []
  | c :: cs, inRun =>
    if isJsWhitespace c then
      if inRun then collapseWsChars cs true
      else '_' :: collapseWsChars cs true
    else c :: collapseWsChars cs false

def jsReplaceWsRuns (s : String) : String :=
  ⟨collapseWsChars s.data false⟩

/-- JavaScript `toLowerCase()` modelled as a character-wise lowering. -/
def jsToLowerCase (s : String) : String :=
  ⟨s.data.map Char.toLower⟩

/-- The `fieldType` normalization inside `deserializeDiagram`: a bare
string becomes `\x7b id: s.toLowerCase().replace(/\s+/g, "_"), name: s \x7d`;
a structured pair passes through unchanged. -/
def normalizeFieldType : WireFieldType → FieldType
  | .str s => { id := jsReplaceWsRuns (jsToLowerCase s), name := s }
  | .structured t => t

def deserializeField (now : Timestamp) (f : BackendField) : DBField :=
  { id := f.id
    name := f.name
    type := normalizeFieldType f.type
    primaryKey := f.primaryKey
    unique := f.unique
    nullable := f.nullable
    createdAt := jsNumOr f.createdAt now
    check := f.check
    default := f.default
    collation := f.collation
    comments := f.comments }

/-- Decoded index: `createdAt` is always regenerated as `Date.now()`. -/
def deserializeIndex (now : Timestamp) (i : BackendIndex) : DBIndex :=
  { id := i.id, name := i.name, unique := i.unique
    fieldIds := i.fieldIds, createdAt := now }

/-- Decoded table: `createdAt: t.createdAt || Date.now()`; indexes default
to the empty list when absent (`t.indexes?.map(...) || []`). -/
def deserializeTable (now : Timestamp) (t : BackendTable) : DBTable :=
  { id := t.id
    name := t.name
    schema := t.schema
    x := t.x
    y := t.y
    color := t.color
    isView := t.isView
    createdAt := jsNumOr t.createdAt now
    fields := t.fields.map (deserializeField now)
    indexes := (t.indexes.map (List.map (deserializeIndex now))).getD []
    comments := t.comments }

def deserializeRelationship (now : Timestamp) (r : BackendRelationship) :
    DBRelationship :=
  { id := r.id
    name := r.name
    sourceTableId := r.sourceTableId
    targetTableId := r.targetTableId
    sourceFieldId := r.sourceFieldId
    targetFieldId := r.targetFieldId
    sourceCardinality := r.sourceCardinality
    targetCardinality := r.targetCardinality
    createdAt := jsNumOr r.createdAt now }

def deserializeDependency (now : Timestamp) (d : BackendDependency) :
    DBDependency :=
  { id := d.id
    tableId := d.tableId
    dependentTableId := d.dependentTableId
    createdAt := jsNumOr d.createdAt now }

def deserializeArea (a : BackendArea) : DBArea :=
  { id := a.id, name := a.name, x := a.x, y := a.y
    width := a.width, height := a.height, color := a.color }

def deserializeCustomType (ct : BackendCustomType) : DBCustomType :=
  { id := ct.id, name := ct.name, schema := ct.schema
    kind := ct.kind, fields := ct.fields }

def deserializeNote (n : BackendNote) : DBNote :=
  { id := n.id, content := n.content, x := n.x, y := n.y
    width := n.width, height := n.height, color := n.color }

/-- Source `SyncService.deserializeDiagram`; `now` is the value `Date.now()`
returns during the decode. -/
def deserializeDiagram (now : Timestamp) (data : BackendDiagramResponse) :
    Diagram :=
  { id := data.id
    name := data.name
    databaseType := data.databaseType
    databaseEdition := data.databaseEdition
    createdAt := data.createdAt
    updatedAt := data.updatedAt
    tables := data.tables.map (List.map (deserializeTable now))
    relationships := data.relationships.map (List.map (deserializeRelationship now))
    dependencies := data.dependencies.map (List.map (deserializeDependency now))
    areas := data.areas.map (List.map deserializeArea)
    customTypes := data.customTypes.map (List.map deserializeCustomType)
    notes := data.notes.map (List.map deserializeNote) }

/-! ## Remote sync client (`SyncService`, sync-service.ts lines 132-237) -/

/-- Source `SyncConfig`. -/
structure SyncConfig where
  apiUrl : String
  enabled : Bool
deriving DecidableEq

/-- Getter `isEnabled: this.config.enabled && !!this.config.apiUrl` —
`!!` on a string is false exactly on the empty string. -/
def SyncConfig.isEnabled (cfg : SyncConfig) : Bool :=
  cfg.enabled && !cfg.apiUrl.isEmpty

/-- Source `PushResponse`. -/
structure PushResponse where
  success : Bool
  diagram_id : String
deriving DecidableEq

/-- Source `DiagramListItem` (internal camelCase projection). -/
structure DiagramListItem where
  id : String
  name : String
  databaseType : String
  databaseEdition : Option String
  createdAt : Timestamp
  updatedAt : Timestamp
deriving DecidableEq

/-- One element of the snake_case payload of `GET /api/sync/diagrams`. -/
structure BackendListItem where
  id : String
  name : String
  database_type : String
  database_edition : Option String
  created_at : Timestamp
  updated_at : Timestamp
deriving DecidableEq

/-- An HTTP response as the client observes it.  `errorBody` is the JSON
body read as an error payload: `none` means `response.json()` rejected
(unparseable body); `some none` means it parsed but its `error` property
is absent; `some (some m)` means the `error` property is the string `m`. -/
structure HttpMeta where
  status : Nat
  statusText : String
  errorBody : Option (Option String)
deriving DecidableEq

/-- Property `Response.ok` per the fetch specification: status in 200-299. -/
def HttpMeta.ok (r : HttpMeta) : Bool :=
  200 ≤ r.status && r.status ≤ 299

/-- Outcome of a `fetch` call: the transport threw, or an HTTP response
arrived carrying a successfully-parsed success body of type `β` (or not,
when the body is unparseable as `β`). -/
inductive FetchOutcome (β : Type) where
  | thrown (msg : String)
  | response (meta : HttpMeta) (body : Option β)
deriving DecidableEq

/-- JavaScript `o.error || fallback` where `o.error : Option String`
(`undefined` and the empty string are falsy). -/
def jsStrOr (x : Option String) (fallback : String) : String :=
  match x with
  | none => fallback
  | some s => if s = "" then fallback else s

/-- The error-message extraction shared by push/pull/list:
`const error = await response.json().catch(() => (\x7berror: HTTP ...\x7d));
throw new Error(error.error || fallback)`. -/
def extractedErrorMessage (r : HttpMeta) (fallback : String) : String :=
  let errorField : Option String :=
    match r.errorBody with
    | none => some ("HTTP " ++ toString r.status ++ ": " ++ r.statusText)
    | some e => e
  jsStrOr errorField fallback

/-- Message of the rejection of `response.json()` on a success-status
response whose body is not valid JSON for the expected shape. -/
def jsonParseFailureMsg : String := "Unexpected end of JSON input"

/-- Result of a client operation: the value or thrown error, plus whether
a network request was issued. -/
structure ClientResult (α : Type) where
  result : Except String α
  networkCalled : Bool

def disabledMsg : String := "Sync service is not enabled"

/-- Source `SyncService.push`: disabled short-circuit, then the fetch; non-ok
responses throw the extracted message, ok responses return the parsed
`PushResponse` body. -/
def SyncService.push (cfg : SyncConfig) (fetched : FetchOutcome PushResponse) :
    ClientResult PushResponse :=
  if ¬cfg.isEnabled then ⟨.error disabledMsg, false⟩
  else
    match fetched with
    | .thrown msg => ⟨.error msg, true⟩
    | .response meta body =>
      if ¬meta.ok then
        ⟨.error (extractedErrorMessage meta "Failed to push diagram"), true⟩
      else
        match body with
        | some resp => ⟨.ok resp, true⟩
        | none => ⟨.error jsonParseFailureMsg, true⟩

/-- Source `SyncService.pull`: the 404 check precedes the ok check, so 404 yields
`none` (absent) rather than an error; other non-ok statuses throw; an ok
response is decoded through the wire codec with `Date.now() = now`. -/
def SyncService.pull (cfg : SyncConfig) (now : Timestamp)
    (fetched : FetchOutcome BackendDiagramResponse) :
    ClientResult (Option Diagram) :=
  if ¬cfg.isEnabled then ⟨.error disabledMsg, false⟩
  else
    match fetched with
    | .thrown msg => ⟨.error msg, true⟩
    | .response meta body =>
      if meta.status = 404 then ⟨.ok none, true⟩
      else if ¬meta.ok then
        ⟨.error (extractedErrorMessage meta "Failed to pull diagram"), true⟩
      else
        match body with
        | some data => ⟨.ok (some (deserializeDiagram now data)), true⟩
        | none => ⟨.error jsonParseFailureMsg, true⟩

/-- Snake-case to camel-case mapping of one list entry, with the two
timestamp strings parsed to instants. -/
def toDiagramListItem (d : BackendListItem) : DiagramListItem :=
  { id := d.id
    name := d.name
    databaseType := d.database_type
    databaseEdition := d.database_edition
    createdAt := d.created_at
    updatedAt := d.updated_at }

/-- Source `SyncService.listDiagrams`. -/
def SyncService.listDiagrams (cfg : SyncConfig)
    (fetched : FetchOutcome (List BackendListItem)) :
    ClientResult (List DiagramListItem) :=
  if ¬cfg.isEnabled then ⟨.error disabledMsg, false⟩
  else
    match fetched with
    | .thrown msg => ⟨.error msg, true⟩
    | .response meta body =>
      if ¬meta.ok then
        ⟨.error (extractedErrorMessage meta "Failed to list diagrams"), true⟩
      else
        match body with
        | some items => ⟨.ok (items.map toDiagramListItem), true⟩
        | none => ⟨.error jsonParseFailureMsg, true⟩

/-! ## Sync coordinator (`useSync`, use-sync.ts)

`JSON.stringify` is modelled as a canonical total rendering of a diagram;
the coordinator never inspects the string, it only stores it and compares
it for equality, exactly as the source stores and compares
`JSON.stringify(diagram)`. -/

def renderOpt (s : Option String) : String :=
  match s with
  | none => "-"
  | some v => "+" ++ v

def renderField (f : DBField) : String :=
  String.intercalate "|" [f.id, f.name, f.type.id, f.type.name,
    toString f.primaryKey, toString f.unique, toString f.nullable,
    toString f.createdAt, renderOpt f.check, renderOpt f.default,
    renderOpt f.collation, renderOpt f.comments]

def renderIndex (i : DBIndex) : String :=
  String.intercalate "|" ([i.id, i.name, toString i.unique,
    toString i.createdAt] ++ i.fieldIds)

def renderTable (t : DBTable) : String :=
  String.intercalate "|" [t.id, t.name, renderOpt t.schema, toString t.x,
    toString t.y, t.color, toString t.isView, toString t.createdAt,
    String.intercalate ";" (t.fields.map renderField),
    String.intercalate ";" (t.indexes.map renderIndex),
    renderOpt t.comments]

def renderRelationship (r : DBRelationship) : String :=
  String.intercalate "|" [r.id, r.name, r.sourceTableId, r.targetTableId,
    r.sourceFieldId, r.targetFieldId, r.sourceCardinality,
    r.targetCardinality, toString r.createdAt]

def renderDependency (d : DBDependency) : String :=
  String.intercalate "|" [d.id, d.tableId, d.dependentTableId,
    toString d.createdAt]

def renderArea (a : DBArea) : String :=
  String.intercalate "|" [a.id, a.name, toString a.x, toString a.y,
    toString a.width, toString a.height, a.color]

def renderCustomType (ct : DBCustomType) : String :=
  String.intercalate "|" [ct.id, ct.name, renderOpt ct.schema, ct.kind,
    match ct.fields with
    | none => "-"
    | some fs =>
      "+" ++ String.intercalate ";"
        (fs.map (fun f => f.fieldName ++ ":" ++ f.fieldType))]

def renderNote (n : DBNote) : String :=
  String.intercalate "|" [n.id, n.content, toString n.x, toString n.y,
    toString n.width, toString n.height, n.color]

def renderOptList (render : α → String) (l : Option (List α)) : String :=
  match l with
  | none => "-"
  | some xs => "+" ++ String.intercalate ";" (xs.map render)

/-- Model of `JSON.stringify(diagram)`. -/
def stringifyDiagram (d : Diagram) : String :=
  String.intercalate "#" [d.id, d.name, d.databaseType,
    renderOpt d.databaseEdition, toString d.createdAt, toString d.updatedAt,
    renderOptList renderTable d.tables,
    renderOptList renderRelationship d.relationships,
    renderOptList renderDependency d.dependencies,
    renderOptList renderArea d.areas,
    renderOptList renderCustomType d.customTypes,
    renderOptList renderNote d.notes]

/-- Coordinator state: the two refs of `useSync`
(`isSyncingRef`, `lastSyncedDiagramRef`). -/
structure SyncState where
  isSyncing : Bool
  lastSyncedDiagram : Option String
deriving DecidableEq

/-- Coordinator environment: `getSyncService()` (which may be null) and
the hook-level `enabled` option. -/
structure UseSyncCtx where
  service : Option SyncConfig
  enabled : Bool
deriving DecidableEq

/-- Observable effects of one `pushDiagram` call. -/
structure PushEvents where
  networkCalled : Bool
  successCalledWith : Option String
  errorCalledWith : Option String
deriving DecidableEq

def noPushEvents : PushEvents :=
  { networkCalled := false, successCalledWith := none,
    errorCalledWith := none }

namespace UseSync

/-- Coordinator `pushDiagram` of `useSync`, one complete call modelled as an atomic
step; `fetched` is the oracle for the single fetch this call may issue.
Between `isSyncingRef.current = true` and the `finally`, the ref is true:
a re-entrant call while this one awaits observes a state whose `isSyncing`
is true and is dropped by the second guard.  The `finally` clears the flag
on every path past the guards, so every returned state below the guards
has `isSyncing = false`. -/
def pushDiagram (ctx : UseSyncCtx) (st : SyncState) (d : Diagram)
    (fetched : FetchOutcome PushResponse) : SyncState × PushEvents :=
  match ctx.service with
  | none => (st, noPushEvents)
  | some cfg =>
    if ¬(cfg.isEnabled && ctx.enabled) then (st, noPushEvents)
    else if st.isSyncing then (st, noPushEvents)
    else
      let diagramJSON := stringifyDiagram d
      if st.lastSyncedDiagram = some diagramJSON then
        ({ st with isSyncing := false }, noPushEvents)
      else
        let res := SyncService.push cfg fetched
        match res.result with
        | .ok resp =>
          if resp.success then
            ({ isSyncing := false, lastSyncedDiagram := some diagramJSON },
             { networkCalled := res.networkCalled,
               successCalledWith := some d.id, errorCalledWith := none })
          else
            ({ st with isSyncing := false },
             { networkCalled := res.networkCalled,
               successCalledWith := none, errorCalledWith := none })
        | .error msg =>
          ({ st with isSyncing := false },
           { networkCalled := res.networkCalled,
             successCalledWith := none, errorCalledWith := some msg })

/-- Observable effects of one `pullDiagram` call. -/
structure PullEvents where
  result : Option Diagram
  errorCalledWith : Option String

/-- Coordinator `pullDiagram` of `useSync`. -/
def pullDiagram (ctx : UseSyncCtx) (st : SyncState) (now : Timestamp)
    (fetched : FetchOutcome BackendDiagramResponse) :
    SyncState × PullEvents :=
  match ctx.service with
  | none => (st, ⟨none, none⟩)
  | some cfg =>
    if ¬(cfg.isEnabled && ctx.enabled) then (st, ⟨none, none⟩)
    else
      match (SyncService.pull cfg now fetched).result with
      | .ok (some diagram) =>
        ({ st with lastSyncedDiagram := some (stringifyDiagram diagram) },
         ⟨some diagram, none⟩)
      | .ok none => (st, ⟨none, none⟩)
      | .error msg => (st, ⟨none, some msg⟩)

/-- Observable effects of one coordinator `listDiagrams` call. -/
structure ListEvents where
  result : List DiagramListItem
  errorCalledWith : Option String

/-- Coordinator `listDiagrams` of `useSync`: errors are swallowed into the error
callback and an empty list. -/
def listDiagrams (ctx : UseSyncCtx)
    (fetched : FetchOutcome (List BackendListItem)) : ListEvents :=
  match ctx.service with
  | none => ⟨[], none⟩
  | some cfg =>
    if ¬(cfg.isEnabled && ctx.enabled) then ⟨[], none⟩
    else
      match (SyncService.listDiagrams cfg fetched).result with
      | .ok items => ⟨items, none⟩
      | .error msg => ⟨[], some msg⟩

end UseSync

/-! ## Startup reconciler (`loadDefaultDiagram` in
use-diagram-loader.tsx)

The function is modelled as a pure computation from its inputs (the route
`diagramId`, the configured default id, the Local Catalog lookup, the
coordinator's remote list result, and the Local Catalog contents) to the
ordered trace of collaborator calls it makes plus the Local Catalog after
the run.  The coordinator's `listDiagrams` never throws (it returns `[]`
on error), so the remote list input is a plain list. -/

inductive LoaderEvent where
  | clearedInitialDiagram
  | showedLoader
  | hidLoader
  | resetRedo
  | resetUndo
  | loadAttempted (id : String)
  | stagedDiagram (id : String)
  | openedOpenDialog (canClose : Bool)
  | openedCreateDialog
  | navigatedTo (id : String)
  | remoteListRequested
  | addedLocalEntry (id : String)
deriving DecidableEq

/-- The local catalog entry the reconciler creates from a remote
projection (`addDiagram(\x7bdiagram: \x7bid, name, databaseType,
databaseEdition, createdAt, updatedAt\x7d\x7d)`): only the projection
fields are populated, no entity collections. -/
def remoteToLocalEntry (remote : DiagramListItem) : Diagram :=
  { id := remote.id
    name := remote.name
    databaseType := remote.databaseType
    databaseEdition := remote.databaseEdition
    createdAt := remote.createdAt
    updatedAt := remote.updatedAt
    tables := none
    relationships := none
    dependencies := none
    areas := none
    customTypes := none
    notes := none }

/-- The catalog-merge loop (use-diagram-loader.tsx lines 64-91): when the
remote list is non-empty, the local id set is computed once, then each
remote entry whose id is not in that set is appended to the Local Catalog
as a projection entry; entries with locally-present ids are never
written. -/
def reconcileRemoteDiagrams (locals : List Diagram)
    (remotes : List DiagramListItem) : List Diagram :=
  if remotes.length > 0 then
    let localIds := locals.map (fun d => d.id)
    remotes.foldl
      (fun catalog remote =>
        if localIds.contains remote.id then catalog
        else catalog ++ [remoteToLocalEntry remote])
      locals
  else locals

/-- The `addDiagram` events the merge loop emits, in loop order. -/
def reconcileEvents (locals : List Diagram)
    (remotes : List DiagramListItem) : List LoaderEvent :=
  let localIds := locals.map (fun d => d.id)
  (remotes.filter (fun r => ¬localIds.contains r.id)).map
    (fun r => .addedLocalEntry r.id)

/-- Steps 3-4 of the decision tree: remote reconciliation then the final
prompt, entered after the explicit-id and default-id branches fell
through.  `leadEvents` are the events of the fallen-through branch. -/
def loadFallthrough (leadEvents : List LoaderEvent)
    (remotes : List DiagramListItem) (locals : List Diagram) :
    List LoaderEvent × List Diagram :=
  let merged := reconcileRemoteDiagrams locals remotes
  (leadEvents ++ [.remoteListRequested] ++ reconcileEvents locals remotes ++
      [if merged.length > 0 then .openedOpenDialog false
       else .openedCreateDialog],
    merged)

/-- Source `loadDefaultDiagram` (use-diagram-loader.tsx lines 37-106):
the explicit-id branch, then the configured-default branch, then remote
reconciliation and the final prompt. -/
def loadDefaultDiagram (diagramId : Option String)
    (defaultDiagramId : Option String)
    (loadDiagram : String → Option Diagram)
    (remotes : List DiagramListItem) (locals : List Diagram) :
    List LoaderEvent × List Diagram :=
  match diagramId with
  | some did =>
    (([.clearedInitialDiagram, .showedLoader, .resetRedo, .resetUndo,
        .loadAttempted did] ++
      match loadDiagram did with
      | none => [.openedOpenDialog false, .hidLoader]
      | some diagram => [.stagedDiagram diagram.id, .hidLoader]),
     locals)
  | none =>
    match defaultDiagramId with
    | some dflt =>
      (match loadDiagram dflt with
       | some _ => ([.loadAttempted dflt, .navigatedTo dflt], locals)
       | none => loadFallthrough [.loadAttempted dflt] remotes locals)
    | none => loadFallthrough [] remotes locals

/-! ## Shared sample values for witnesses -/

/-- A minimal diagram (all entity collections absent). -/
def sampleDiagram : Diagram :=
  { id := "d1", name := "demo", databaseType := "postgresql"
    databaseEdition := none, createdAt := 10, updatedAt := 20
    tables := none, relationships := none, dependencies := none
    areas := none, customTypes := none, notes := none }

/-- An enabled client configuration. -/
def sampleConfig : SyncConfig := { apiUrl := "http://localhost:3001", enabled := true }

/-- The coordinator state at rest with no baseline. -/
def sampleState : SyncState := { isSyncing := false, lastSyncedDiagram := none }

/-- A remote catalog entry. -/
def sampleItem : DiagramListItem :=
  { id := "r1", name := "remote", databaseType := "mysql"
    databaseEdition := none, createdAt := 3, updatedAt := 4 }

/-! ## Claim theorems -/

/-- C9: decoding a wire field whose type is a bare string produces the
pair whose id is the string lowercased with every whitespace run replaced
by an underscore and whose name is the original string; a structured
`\x7bid, name\x7d` wire type passes through decode unchanged.  The third
conjunct ties the normalization to the field decoder of
`deserializeDiagram`; the concrete conjuncts instantiate the claim's
examples, the last one exercising a multi-character whitespace run. -/
theorem fieldType_normalization :
    (∀ s : String, normalizeFieldType (.str s) =
      { id := jsReplaceWsRuns (jsToLowerCase s), name := s }) ∧
    (∀ t : FieldType, normalizeFieldType (.structured t) = t) ∧
    (∀ (now : Timestamp) (f : BackendField),
      (deserializeField now f).type = normalizeFieldType f.type) ∧
    normalizeFieldType (.str "VARCHAR") =
      { id := "varchar", name := "VARCHAR" } ∧
    normalizeFieldType (.structured { id := "uuid", name := "UUID" }) =
      { id := "uuid", name := "UUID" } ∧
    normalizeFieldType (.str "TIMESTAMP  WITH TIME ZONE") =
      { id := "timestamp_with_time_zone",
        name := "TIMESTAMP  WITH TIME ZONE" } := by
  refine ⟨fun s => rfl, fun t => rfl, fun now f => rfl, ?_, rfl, ?_⟩ <;> decide

/-- C5: with the client disabled (`enabled = false` or empty endpoint),
the client's `push`, `pull` and `listDiagrams` each throw the disabled
error without a network call, and the coordinator's push, pull and list
return their fallback outcomes (no-op, absent, empty list) without a
network call. -/
theorem disabled_short_circuit (cfg : SyncConfig) (e : Bool)
    (st : SyncState) (d : Diagram) (now : Timestamp)
    (fp : FetchOutcome PushResponse)
    (fd : FetchOutcome BackendDiagramResponse)
    (fl : FetchOutcome (List BackendListItem))
    (h : cfg.enabled = false ∨ cfg.apiUrl = "") :
    SyncService.push cfg fp = ⟨.error disabledMsg, false⟩ ∧
    SyncService.pull cfg now fd = ⟨.error disabledMsg, false⟩ ∧
    SyncService.listDiagrams cfg fl = ⟨.error disabledMsg, false⟩ ∧
    UseSync.pushDiagram ⟨some cfg, e⟩ st d fp = (st, noPushEvents) ∧
    UseSync.pullDiagram ⟨some cfg, e⟩ st now fd = (st, ⟨none, none⟩) ∧
    UseSync.listDiagrams ⟨some cfg, e⟩ fl = ⟨[], none⟩ := by
  have hEn : cfg.isEnabled = false := by
    rcases h with h | h <;>
      simp [SyncConfig.isEnabled, h, String.isEmpty_iff]
  refine ⟨?_, ?_, ?_, ?_, ?_, ?_⟩ <;>
    simp [SyncService.push, SyncService.pull, SyncService.listDiagrams,
      UseSync.pushDiagram, UseSync.pullDiagram, UseSync.listDiagrams, hEn]

/-- Witness for C5 at a concrete disabled configuration. -/
theorem disabled_short_circuit_witness :
    SyncService.push ⟨"", true⟩ (.thrown "boom") =
      ⟨.error disabledMsg, false⟩ ∧
    SyncService.pull ⟨"", true⟩ 5 (.thrown "boom") =
      ⟨.error disabledMsg, false⟩ ∧
    SyncService.listDiagrams ⟨"", true⟩ (.thrown "boom") =
      ⟨.error disabledMsg, false⟩ ∧
    UseSync.pushDiagram ⟨some ⟨"", true⟩, true⟩ sampleState sampleDiagram
      (.thrown "boom") = (sampleState, noPushEvents) ∧
    UseSync.pullDiagram ⟨some ⟨"", true⟩, true⟩ sampleState 5
      (.thrown "boom") = (sampleState, ⟨none, none⟩) ∧
    UseSync.listDiagrams ⟨some ⟨"", true⟩, true⟩ (.thrown "boom") =
      ⟨[], none⟩ :=
  disabled_short_circuit ⟨"", true⟩ true sampleState sampleDiagram 5
    (.thrown "boom") (.thrown "boom") (.thrown "boom") (Or.inr rfl)

/-- C6: a pull answered with status 404 yields the absent outcome at the
client and no error-callback invocation at the coordinator; a pull that
fails with any other non-success status, or whose transport throws,
invokes the error callback and still returns the absent outcome. -/
theorem pull_not_found (cfg : SyncConfig) (st : SyncState)
    (now : Timestamp) (meta : HttpMeta)
    (body : Option BackendDiagramResponse) (tmsg : String)
    (hEn : cfg.isEnabled = true) :
    (meta.status = 404 →
      SyncService.pull cfg now (.response meta body) = ⟨.ok none, true⟩ ∧
      UseSync.pullDiagram ⟨some cfg, true⟩ st now (.response meta body) =
        (st, ⟨none, none⟩)) ∧
    (meta.status ≠ 404 → meta.ok = false →
      UseSync.pullDiagram ⟨some cfg, true⟩ st now (.response meta body) =
        (st, ⟨none,
          some (extractedErrorMessage meta "Failed to pull diagram")⟩)) ∧
    UseSync.pullDiagram ⟨some cfg, true⟩ st now (.thrown tmsg) =
      (st, ⟨none, some tmsg⟩) := by
  refine ⟨fun h404 => ?_, fun hne hok => ?_, ?_⟩ <;>
    simp_all [SyncService.pull, UseSync.pullDiagram, HttpMeta.ok]

/-- Witness for C6: a 404 pull, a 500 pull, and a transport throw at
concrete inputs. -/
theorem pull_not_found_witness :
    (SyncService.pull sampleConfig 7
        (.response ⟨404, "Not Found", none⟩ none) = ⟨.ok none, true⟩ ∧
      UseSync.pullDiagram ⟨some sampleConfig, true⟩ sampleState 7
        (.response ⟨404, "Not Found", none⟩ none) =
        (sampleState, ⟨none, none⟩)) ∧
    UseSync.pullDiagram ⟨some sampleConfig, true⟩ sampleState 7
      (.response ⟨500, "Internal Server Error", none⟩ none) =
      (sampleState, ⟨none,
        some (extractedErrorMessage ⟨500, "Internal Server Error", none⟩
          "Failed to pull diagram")⟩) ∧
    UseSync.pullDiagram ⟨some sampleConfig, true⟩ sampleState 7
      (.thrown "network down") = (sampleState, ⟨none, some "network down"⟩) :=
  ⟨(pull_not_found sampleConfig sampleState 7 ⟨404, "Not Found", none⟩ none
      "network down" (by decide)).1 rfl,
   (pull_not_found sampleConfig sampleState 7 ⟨500, "Internal Server Error",
      none⟩ none "network down" (by decide)).2.1 (by decide) (by decide),
   (pull_not_found sampleConfig sampleState 7 ⟨404, "Not Found", none⟩ none
      "network down" (by decide)).2.2⟩

/-- C10: on an HTTP success status whose parsed body carries
`success = false`, the coordinator push invokes neither callback, leaves
the sync baseline unchanged, and clears the in-flight flag. -/
theorem push_success_false_silent (cfg : SyncConfig) (st : SyncState)
    (d : Diagram) (meta : HttpMeta) (respId : String)
    (hEn : cfg.isEnabled = true) (hFlag : st.isSyncing = false)
    (hBase : st.lastSyncedDiagram ≠ some (stringifyDiagram d))
    (hOk : meta.ok = true) :
    UseSync.pushDiagram ⟨some cfg, true⟩ st d
        (.response meta (some ⟨false, respId⟩)) =
      ({ isSyncing := false, lastSyncedDiagram := st.lastSyncedDiagram },
       { networkCalled := true, successCalledWith := none,
         errorCalledWith := none }) := by
  simp [UseSync.pushDiagram, SyncService.push, hEn, hFlag, hBase, hOk]

/-- Witness for C10 at a concrete input. -/
theorem push_success_false_silent_witness :
    UseSync.pushDiagram ⟨some sampleConfig, true⟩ sampleState sampleDiagram
        (.response ⟨200, "OK", none⟩ (some ⟨false, "d1"⟩)) =
      ({ isSyncing := false, lastSyncedDiagram := none },
       { networkCalled := true, successCalledWith := none,
         errorCalledWith := none }) :=
  push_success_false_silent sampleConfig sampleState sampleDiagram
    ⟨200, "OK", none⟩ "d1" (by decide) rfl (by simp [sampleState])
    (by decide)

/-- C3: a first push of a changed diagram that completes successfully
records the serialization as the baseline and invokes the success
callback; a second push of the unchanged diagram finds the candidate
serialization identical to the baseline, issues no network request, does
not invoke the success callback, and leaves the state unchanged. -/
theorem push_change_detection (cfg : SyncConfig) (st0 : SyncState)
    (d : Diagram) (meta : HttpMeta) (respId : String)
    (f2 : FetchOutcome PushResponse)
    (hEn : cfg.isEnabled = true) (hFlag : st0.isSyncing = false)
    (hBase : st0.lastSyncedDiagram ≠ some (stringifyDiagram d))
    (hOk : meta.ok = true) :
    UseSync.pushDiagram ⟨some cfg, true⟩ st0 d
        (.response meta (some ⟨true, respId⟩)) =
      (⟨false, some (stringifyDiagram d)⟩,
       { networkCalled := true, successCalledWith := some d.id,
         errorCalledWith := none }) ∧
    UseSync.pushDiagram ⟨some cfg, true⟩ ⟨false, some (stringifyDiagram d)⟩
        d f2 =
      (⟨false, some (stringifyDiagram d)⟩, noPushEvents) := by
  constructor <;>
    simp [UseSync.pushDiagram, SyncService.push, hEn, hFlag, hBase, hOk]

/-- Witness for C3 at a concrete input: the second call is a no-op for an
arbitrary second transport oracle (here a would-be network failure, which
is never consulted). -/
theorem push_change_detection_witness :
    UseSync.pushDiagram ⟨some sampleConfig, true⟩ sampleState sampleDiagram
        (.response ⟨200, "OK", none⟩ (some ⟨true, "d1"⟩)) =
      (⟨false, some (stringifyDiagram sampleDiagram)⟩,
       { networkCalled := true, successCalledWith := some "d1",
         errorCalledWith := none }) ∧
    UseSync.pushDiagram ⟨some sampleConfig, true⟩
        ⟨false, some (stringifyDiagram sampleDiagram)⟩ sampleDiagram
        (.thrown "net down") =
      (⟨false, some (stringifyDiagram sampleDiagram)⟩, noPushEvents) := by
  have h := push_change_detection sampleConfig sampleState sampleDiagram
    ⟨200, "OK", none⟩ "d1" (.thrown "net down") (by decide) rfl
    (by simp [sampleState]) (by decide)
  exact ⟨h.1, h.2⟩

/-- C4: push is single-flight — a call arriving while the in-flight flag
is set returns immediately with no network request, no callbacks, no
queueing, and no state change; and every push attempt that passes the
guards (success, failure, or skip by change detection) finishes with the
in-flight flag cleared, so a later call can start fresh. -/
theorem push_single_flight :
    (∀ (ctx : UseSyncCtx) (st : SyncState) (d : Diagram)
        (f : FetchOutcome PushResponse), st.isSyncing = true →
        UseSync.pushDiagram ctx st d f = (st, noPushEvents)) ∧
    (∀ (cfg : SyncConfig) (st : SyncState) (d : Diagram)
        (f : FetchOutcome PushResponse),
        cfg.isEnabled = true → st.isSyncing = false →
        (UseSync.pushDiagram ⟨some cfg, true⟩ st d f).1.isSyncing = false) := by
  constructor
  · intro ctx st d f h
    match hs : ctx.service with
    | none => simp [UseSync.pushDiagram, hs]
    | some cfg => simp [UseSync.pushDiagram, hs, h]
  · intro cfg st d f hEn hFlag
    simp [UseSync.pushDiagram, hEn, hFlag]
    split
    · rfl
    · split
      · split <;> rfl
      · rfl

/-- Witness for C4: a call against a busy state is dropped unchanged, and
concrete success, failure, and skip attempts all end with the flag
cleared. -/
theorem push_single_flight_witness :
    UseSync.pushDiagram ⟨some sampleConfig, true⟩ ⟨true, none⟩ sampleDiagram
        (.thrown "net down") = (⟨true, none⟩, noPushEvents) ∧
    (UseSync.pushDiagram ⟨some sampleConfig, true⟩ sampleState sampleDiagram
        (.response ⟨200, "OK", none⟩ (some ⟨true, "d1"⟩))).1.isSyncing =
      false ∧
    (UseSync.pushDiagram ⟨some sampleConfig, true⟩ sampleState sampleDiagram
        (.thrown "net down")).1.isSyncing = false ∧
    (UseSync.pushDiagram ⟨some sampleConfig, true⟩
        ⟨false, some (stringifyDiagram sampleDiagram)⟩ sampleDiagram
        (.thrown "net down")).1.isSyncing = false :=
  ⟨push_single_flight.1 ⟨some sampleConfig, true⟩ ⟨true, none⟩ sampleDiagram
      (.thrown "net down") rfl,
   push_single_flight.2 sampleConfig sampleState sampleDiagram
      (.response ⟨200, "OK", none⟩ (some ⟨true, "d1"⟩)) (by decide) rfl,
   push_single_flight.2 sampleConfig sampleState sampleDiagram
      (.thrown "net down") (by decide) rfl,
   push_single_flight.2 sampleConfig
      ⟨false, some (stringifyDiagram sampleDiagram)⟩ sampleDiagram
      (.thrown "net down") (by decide) rfl⟩

/-- C7: one-directional, non-clobbering catalog merge — with local catalog
`[A]` and remote catalog `[A, B]` (matched by id), reconciliation leaves
the catalog as `[A, B]`: A is untouched (its id already exists locally, so
the remote entry for it is never written) and B is a new local entry
populated only from the remote projection fields.  The second conjunct
states the same outcome through the full startup decision tree (no
explicit id, no configured default). -/
theorem catalog_merge (A : Diagram) (ra rb : DiagramListItem)
    (ld : String → Option Diagram)
    (ha : ra.id = A.id) (hb : rb.id ≠ A.id) :
    reconcileRemoteDiagrams [A] [ra, rb] = [A, remoteToLocalEntry rb] ∧
    (loadDefaultDiagram none none ld [ra, rb] [A]).2 =
      [A, remoteToLocalEntry rb] := by
  have h : reconcileRemoteDiagrams [A] [ra, rb] =
      [A, remoteToLocalEntry rb] := by
    simp [reconcileRemoteDiagrams, ha, hb]
  exact ⟨h, by
    simp only [loadDefaultDiagram, loadFallthrough]
    exact h⟩

/-- Witness for C7 at concrete catalogs. -/
theorem catalog_merge_witness :
    reconcileRemoteDiagrams [sampleDiagram]
        [{ id := "d1", name := "demo", databaseType := "postgresql",
           databaseEdition := none, createdAt := 10, updatedAt := 20 },
         sampleItem] =
      [sampleDiagram, remoteToLocalEntry sampleItem] ∧
    (loadDefaultDiagram none none (fun _ => none)
        [{ id := "d1", name := "demo", databaseType := "postgresql",
           databaseEdition := none, createdAt := 10, updatedAt := 20 },
         sampleItem] [sampleDiagram]).2 =
      [sampleDiagram, remoteToLocalEntry sampleItem] :=
  catalog_merge sampleDiagram
    { id := "d1", name := "demo", databaseType := "postgresql",
      databaseEdition := none, createdAt := 10, updatedAt := 20 }
    sampleItem (fun _ => none) rfl (by decide)

/-- C8: with an explicit diagram id that the Local Catalog does not
contain, the reconciler's trace is exactly: clear the staged diagram, show
the loader, reset both history stacks, attempt the load, open the
non-dismissible open-existing prompt (`canClose = false`), hide the
loader — the loader is shown before the load attempt and hidden after the
miss, no remote reconciliation is requested, no create-new prompt opens,
and the Local Catalog is untouched. -/
theorem explicit_id_missing_prompt (did : String)
    (dflt : Option String) (ld : String → Option Diagram)
    (remotes : List DiagramListItem) (locals : List Diagram)
    (hMiss : ld did = none) :
    loadDefaultDiagram (some did) dflt ld remotes locals =
      ([.clearedInitialDiagram, .showedLoader, .resetRedo, .resetUndo,
        .loadAttempted did, .openedOpenDialog false, .hidLoader],
       locals) ∧
    LoaderEvent.openedCreateDialog ∉
      (loadDefaultDiagram (some did) dflt ld remotes locals).1 ∧
    LoaderEvent.remoteListRequested ∉
      (loadDefaultDiagram (some did) dflt ld remotes locals).1 := by
  refine ⟨?_, ?_, ?_⟩ <;> simp [loadDefaultDiagram, hMiss]

/-- Witness for C8: the id `x1` absent from an empty Local Catalog. -/
theorem explicit_id_missing_prompt_witness :
    loadDefaultDiagram (some "x1") none (fun _ => none) [sampleItem] [] =
      ([.clearedInitialDiagram, .showedLoader, .resetRedo, .resetUndo,
        .loadAttempted "x1", .openedOpenDialog false, .hidLoader], []) ∧
    LoaderEvent.openedCreateDialog ∉
      (loadDefaultDiagram (some "x1") none (fun _ => none) [sampleItem]
        []).1 ∧
    LoaderEvent.remoteListRequested ∉
      (loadDefaultDiagram (some "x1") none (fun _ => none) [sampleItem]
        []).1 :=
  explicit_id_missing_prompt "x1" none (fun _ => none) [sampleItem] [] rfl

/-! ## Round-trip characterization (C1)

`deserializeDiagram now (serializeDiagram d)` reproduces `d` except for
the `createdAt` drift the codec inflicts: the serializer drops table,
relationship, and dependency `createdAt` (so decode backfills them with
`now`), the decoder regenerates every index `createdAt` as `now`, and a
field `createdAt` — which does survive the wire — is backfilled exactly
when its wire value is absent or the falsy number `0`. -/

def roundTripField (now : Timestamp) (f : DBField) : DBField :=
  { f with createdAt := if f.createdAt = 0 then now else f.createdAt }

def roundTripIndex (now : Timestamp) (i : DBIndex) : DBIndex :=
  { i with createdAt := now }

def roundTripTable (now : Timestamp) (t : DBTable) : DBTable :=
  { t with createdAt := now
           fields := t.fields.map (roundTripField now)
           indexes := t.indexes.map (roundTripIndex now) }

def roundTripRelationship (now : Timestamp) (r : DBRelationship) :
    DBRelationship :=
  { r with createdAt := now }

def roundTripDependency (now : Timestamp) (dep : DBDependency) :
    DBDependency :=
  { dep with createdAt := now }

/-- The exact value of `decode (encode d)` at decode instant `now`. -/
def roundTripExpected (now : Timestamp) (d : Diagram) : Diagram :=
  { d with
    tables := d.tables.map (List.map (roundTripTable now))
    relationships := d.relationships.map (List.map (roundTripRelationship now))
    dependencies := d.dependencies.map (List.map (roundTripDependency now)) }

theorem deserialize_serialize_field (now : Timestamp) (f : DBField) :
    deserializeField now (serializeField f) = roundTripField now f := rfl

theorem deserialize_serialize_index (now : Timestamp) (i : DBIndex) :
    deserializeIndex now (serializeIndex i) = roundTripIndex now i := rfl

theorem deserialize_serialize_table (now : Timestamp) (did : String)
    (t : DBTable) :
    deserializeTable now (serializeTable did t) = roundTripTable now t := by
  simp [deserializeTable, serializeTable, roundTripTable, List.map_map,
    Function.comp_def, deserialize_serialize_field,
    deserialize_serialize_index, jsNumOr]

theorem deserialize_serialize_relationship (now : Timestamp) (did : String)
    (r : DBRelationship) :
    deserializeRelationship now (serializeRelationship did r) =
      roundTripRelationship now r := rfl

theorem deserialize_serialize_dependency (now : Timestamp) (did : String)
    (dep : DBDependency) :
    deserializeDependency now (serializeDependency did dep) =
      roundTripDependency now dep := rfl

theorem deserialize_serialize_area (did : String) (a : DBArea) :
    deserializeArea (serializeArea did a) = a := rfl

theorem deserialize_serialize_customType (did : String)
    (ct : DBCustomType) :
    deserializeCustomType (serializeCustomType did ct) = ct := rfl

theorem deserialize_serialize_note (did : String) (n : DBNote) :
    deserializeNote (serializeNote did n) = n := rfl

/-- The codec round-trip, characterized exactly (for arbitrary diagrams;
absent collections stay absent). -/
theorem roundtrip_general (now : Timestamp) (d : Diagram) :
    deserializeDiagram now (serializeDiagram d) = roundTripExpected now d := by
  simp [deserializeDiagram, serializeDiagram, roundTripExpected,
    Option.map_map, List.map_map, Function.comp_def,
    deserialize_serialize_table, deserialize_serialize_relationship,
    deserialize_serialize_dependency, deserialize_serialize_area,
    deserialize_serialize_customType, deserialize_serialize_note]

/-- A field whose `createdAt` is the falsy number `0`. -/
def cexField : DBField :=
  { id := "f1", name := "col", type := ⟨"int4", "INT4"⟩
    primaryKey := false, unique := false, nullable := true
    createdAt := 0, check := none, default := none
    collation := none, comments := none }

def cexTable : DBTable :=
  { id := "t1", name := "users", schema := none, x := 0, y := 0
    color := "blue", isView := false, createdAt := 5
    fields := [cexField], indexes := [], comments := none }

/-- A diagram with all six collections present whose only field carries
`createdAt = 0`. -/
def cexDiagram : Diagram :=
  { id := "d1", name := "demo", databaseType := "postgresql"
    databaseEdition := none, createdAt := 1, updatedAt := 2
    tables := some [cexTable], relationships := some []
    dependencies := some [], areas := some [], customTypes := some []
    notes := some [] }

/-- C1 counterexample: for `cexDiagram` (all collections present) the
field `createdAt = 0` IS present on the wire (`serializeDiagram` passes
fields wholesale, emitting `some 0`), yet decoding at `now = 1` rewrites
it to `1`; so `decode (encode d)` differs from `d` in a `createdAt` that
was not absent on the wire — the only drift the claim allows.  The final
conjunct shows the decoded value differs from the value the claim
predicts (`cexDiagram` with only the wire-absent table `createdAt`
backfilled). -/
theorem roundtrip_counterexample :
    ((serializeDiagram cexDiagram).tables.getD []).map
        (fun t => t.fields.map (fun f => f.createdAt)) = [[some 0]] ∧
    ((deserializeDiagram 1 (serializeDiagram cexDiagram)).tables.getD
        []).map (fun t => t.fields.map (fun f => f.createdAt)) = [[1]] ∧
    deserializeDiagram 1 (serializeDiagram cexDiagram) ≠
      { cexDiagram with tables := some [{ cexTable with createdAt := 1 }] } := by
  decide

/-- C1 amended: for every diagram with all optional collections present,
`decode (encode d)` at decode instant `now` reproduces `d` exactly except
that table, relationship, and dependency `createdAt` (dropped by encode)
are backfilled to `now`, every index `createdAt` is regenerated to `now`,
and a field `createdAt` is backfilled to `now` exactly when its wire
value is absent or the falsy number `0`. -/
theorem roundtrip_amended (d : Diagram) (now : Timestamp)
    (_h1 : d.tables.isSome = true) (_h2 : d.relationships.isSome = true)
    (_h3 : d.dependencies.isSome = true) (_h4 : d.areas.isSome = true)
    (_h5 : d.customTypes.isSome = true) (_h6 : d.notes.isSome = true) :
    deserializeDiagram now (serializeDiagram d) = roundTripExpected now d :=
  roundtrip_general now d

/-- Witness for the amended C1 at a concrete all-collections-present
diagram. -/
theorem roundtrip_amended_witness :
    deserializeDiagram 42 (serializeDiagram cexDiagram) =
      roundTripExpected 42 cexDiagram :=
  roundtrip_amended cexDiagram 42 rfl rfl rfl rfl rfl rfl

/-- C2 counterexample: a push failing with status 500 whose body parses
but carries no `error` property invokes the error callback with the fixed
fallback string `Failed to push diagram` — a message neither extracted
from the response's error body nor synthesized from the status and status
text. -/
theorem push_error_message_counterexample :
    UseSync.pushDiagram ⟨some sampleConfig, true⟩ sampleState sampleDiagram
        (.response ⟨500, "Internal Server Error", some none⟩ none) =
      (⟨false, none⟩,
       { networkCalled := true, successCalledWith := none,
         errorCalledWith := some "Failed to push diagram" }) ∧
    "Failed to push diagram" ≠ "HTTP 500: Internal Server Error" := by
  decide

/-- C2 amended: whenever the underlying push fails — the transport throws
or the response status is non-success — the coordinator invokes the error
callback and not the success callback; the callback's message is the
thrown failure's message in the transport case, and otherwise the
response body's nonempty `error` field when present, the string
synthesized from the numeric status and status text when the body cannot
be parsed, and the fixed fallback `Failed to push diagram` when the body
parses without a nonempty `error` field. -/
theorem push_failure_error_callback (cfg : SyncConfig) (st : SyncState)
    (d : Diagram) (tmsg : String) (meta : HttpMeta)
    (body : Option PushResponse)
    (hEn : cfg.isEnabled = true) (hFlag : st.isSyncing = false)
    (hBase : st.lastSyncedDiagram ≠ some (stringifyDiagram d)) :
    UseSync.pushDiagram ⟨some cfg, true⟩ st d (.thrown tmsg) =
      ({ st with isSyncing := false },
       { networkCalled := true, successCalledWith := none,
         errorCalledWith := some tmsg }) ∧
    (meta.ok = false →
      UseSync.pushDiagram ⟨some cfg, true⟩ st d (.response meta body) =
        ({ st with isSyncing := false },
         { networkCalled := true, successCalledWith := none,
           errorCalledWith :=
             some (extractedErrorMessage meta "Failed to push diagram") })) ∧
    (meta.errorBody = none →
      extractedErrorMessage meta "Failed to push diagram" =
        "HTTP " ++ toString meta.status ++ ": " ++ meta.statusText) ∧
    (meta.errorBody = some none →
      extractedErrorMessage meta "Failed to push diagram" =
        "Failed to push diagram") ∧
    (∀ m, m ≠ "" → meta.errorBody = some (some m) →
      extractedErrorMessage meta "Failed to push diagram" = m) := by
  refine ⟨?_, fun hok => ?_, fun hb => ?_, fun hb => ?_, fun m hm hb => ?_⟩
  · simp [UseSync.pushDiagram, SyncService.push, hEn, hFlag, hBase]
  · simp [UseSync.pushDiagram, SyncService.push, hEn, hFlag, hBase, hok]
  · simp only [extractedErrorMessage, jsStrOr, hb]
    split
    · rename_i h
      have hl := congrArg String.length h
      simp [String.length_append] at hl
      exact absurd hl.1.1.1 (by decide)
    · rfl
  · simp [extractedErrorMessage, jsStrOr, hb]
  · simp [extractedErrorMessage, jsStrOr, hb, hm]

/-- Witness for the amended C2: a transport throw and a 502 whose body
carries `error = "oops"`. -/
theorem push_failure_error_callback_witness :
    UseSync.pushDiagram ⟨some sampleConfig, true⟩ sampleState sampleDiagram
        (.thrown "net down") =
      ({ sampleState with isSyncing := false },
       { networkCalled := true, successCalledWith := none,
         errorCalledWith := some "net down" }) ∧
    UseSync.pushDiagram ⟨some sampleConfig, true⟩ sampleState sampleDiagram
        (.response ⟨502, "Bad Gateway", some (some "oops")⟩ none) =
      ({ sampleState with isSyncing := false },
       { networkCalled := true, successCalledWith := none,
         errorCalledWith :=
           some (extractedErrorMessage ⟨502, "Bad Gateway", some (some "oops")⟩
             "Failed to push diagram") }) ∧
    extractedErrorMessage ⟨502, "Bad Gateway", some (some "oops")⟩
      "Failed to push diagram" = "oops" := by
  have h1 := push_failure_error_callback sampleConfig sampleState
    sampleDiagram "net down" ⟨502, "Bad Gateway", some (some "oops")⟩ none
    (by decide) rfl (by simp [sampleState])
  exact ⟨h1.1, h1.2.1 (by decide), h1.2.2.2.2 "oops" (by decide) rfl⟩

end ChartDB
